import Mathlib

/-!
Shallow embedding of the microblog backend (backend/main.py): three relational
tables (users, posts, likes), bearer-token-as-username authentication, and the
seven HTTP endpoints.  Tables are lists of rows in insertion order; the
generated uuid, the current UTC instant and the autoincrement like id enter
the handlers as parameters; a handler returns its outcome together with the
state after the request (errors raised before any write leave the state
unchanged, matching the rollback of the scoped session).
-/

/-- Row of the users table (class UserDB, main.py lines 30-36). -/
structure UserDB where
  id : String
  username : String
  password : String
deriving Repr, DecidableEq

/-- Row of the posts table (class PostDB, main.py lines 38-46); the DateTime
timestamp is modelled as a Nat instant. -/
structure PostDB where
  id : String
  text : String
  timestamp : Nat
  owner_id : String
  owner_username : String
deriving Repr, DecidableEq

/-- Row of the likes table (class LikeDB, main.py lines 48-55); the table
declares UniqueConstraint (user_id, post_id). -/
structure LikeDB where
  id : Nat
  user_id : String
  post_id : String
deriving Repr, DecidableEq

/-- Pydantic response model User (main.py lines 70-74): id and username only. -/
structure User where
  id : String
  username : String
deriving Repr, DecidableEq

/-- Pydantic response model PostWithLikes (main.py lines 76-78). -/
structure PostWithLikes where
  id : String
  text : String
  timestamp : Nat
  owner_id : String
  owner_username : String
  likes_count : Nat
  liked_by_me : Bool
deriving Repr, DecidableEq

/-- The relational store: the three tables, each a list of rows in insertion
order. -/
structure DB where
  users : List UserDB
  posts : List PostDB
  likes : List LikeDB
deriving Repr, DecidableEq

/-- Outcomes of a request other than the handler's success value. -/
inductive Err where
  /-- raise HTTPException(code, detail) in a handler. -/
  | http (code : Nat) (detail : String)
  /-- FastAPI rejects the request before the handler runs: a required header
  parameter is absent (422 validation error). -/
  | missingHeader
  /-- FastAPI rejects the request body: a required field of the Pydantic
  model is absent (422 validation error). -/
  | missingField
  /-- the driver raises IntegrityError on commit (unique constraint violated);
  nothing in main.py catches it, so it surfaces as a 500-class failure. -/
  | integrityError
deriving Repr, DecidableEq

/-- HTTP status each error surfaces as. -/
def Err.statusCode : Err → Nat
  | .http code _ => code
  | .missingHeader => 422
  | .missingField => 422
  | .integrityError => 500

instance {ε α : Type} [DecidableEq ε] [DecidableEq α] : DecidableEq (Except ε α) := fun a b =>
  match a, b with
  | .ok x, .ok y =>
    match decEq x y with
    | isTrue h => isTrue (by rw [h])
    | isFalse h => isFalse (by intro c; injection c; contradiction)
  | .error x, .error y =>
    match decEq x y with
    | isTrue h => isTrue (by rw [h])
    | isFalse h => isFalse (by intro c; injection c; contradiction)
  | .ok _, .error _ => isFalse (fun c => Except.noConfusion c)
  | .error _, .ok _ => isFalse (fun c => Except.noConfusion c)

/-- First seeded user of FAKE_USERS_DB (main.py line 82). -/
def user1 : UserDB := ⟨"1", "user1", "password1"⟩

/-- Second seeded user of FAKE_USERS_DB (main.py line 83). -/
def user2 : UserDB := ⟨"2", "user2", "password2"⟩

/-- FAKE_USERS_DB (main.py lines 81-84) as the list of rows inserted by
on_startup into an empty users table. -/
def FAKE_USERS_DB : List UserDB := [user1, user2]

/-- Body returned by a successful login (main.py line 122). -/
structure LoginResponse where
  access_token : String
  token_type : String
  user : User
deriving Repr, DecidableEq

/-- Split of a character list at every occurrence of a separator, keeping
empty pieces: the semantics of the Python str.split call with an explicit
separator, written structurally so that it evaluates by kernel reduction. -/
def splitChar (sep : Char) : List Char → List (List Char)
  | [] => [[]]
  | x :: xs =>
    if x = sep then [] :: splitChar sep xs
    else
      match splitChar sep xs with
      | [] => [[x]]
      | piece :: rest => (x :: piece) :: rest

/-- Python s.startswith(pre), via the character lists of the two strings. -/
def pyStartsWith (s pre : String) : Bool := pre.data.isPrefixOf s.data

/-- Token extraction authorization.split(" ")[1] (main.py lines 109, 130 and
208): the piece between the first and the second space.  The headD default is
never reached when the header passed the scheme check, since the scheme
itself contains a space. -/
def bearerToken (authorization : String) : String :=
  String.mk (((splitChar ' ' authorization.data).drop 1).headD [])

/-- get_current_user (main.py lines 106-113): requires the Bearer scheme,
reads the token as a username, 401 if the scheme is wrong or the user is
unknown. -/
def get_current_user (db : DB) (authorization : String) : Except Err User :=
  if ¬ pyStartsWith authorization "Bearer " then
    .error (.http 401 "Invalid scheme")
  else
    match db.users.find? (fun u => u.username == bearerToken authorization) with
    | none => .error (.http 401 "Invalid token")
    | some user_db => .ok ⟨user_db.id, user_db.username⟩

/-- FastAPI dispatch for a handler that depends on get_current_user, whose
authorization header parameter is declared required: a request without the
header is rejected by the framework with a 422 validation error before the
handler runs; otherwise get_current_user decides. -/
def requireAuth (db : DB) (authorization : Option String) : Except Err User :=
  match authorization with
  | none => .error .missingHeader
  | some a => get_current_user db a

/-- login (main.py lines 115-122).  form_data.get yields None for an absent
field; filter_by with username None matches no row, and a None password never
equals the stored string. -/
def login (db : DB) (username : Option String) (password : Option String) :
    Except Err LoginResponse :=
  let user? : Option UserDB := match username with
    | none => none
    | some un => db.users.find? (fun u => u.username == un)
  match user? with
  | none => .error (.http 401 "Incorrect username or password")
  | some user =>
    if password ≠ some user.password then
      .error (.http 401 "Incorrect username or password")
    else
      .ok ⟨user.username, "bearer", ⟨user.id, user.username⟩⟩

/-- Ordering used by order_by(PostDB.timestamp.desc()): timestamps
descending. -/
def tsRel (a b : PostDB) : Prop := b.timestamp ≤ a.timestamp

instance : DecidableRel tsRel := fun a b => Nat.decLe b.timestamp a.timestamp

instance : IsTotal PostDB tsRel := ⟨fun a b => Nat.le_total b.timestamp a.timestamp⟩

instance : IsTrans PostDB tsRel := ⟨fun _ _ _ h1 h2 => Nat.le_trans h2 h1⟩

/-- Count of Like rows for a given post id (the count query, main.py lines
136 and 214). -/
def likesCountFor (likes : List LikeDB) (pid : String) : Nat :=
  likes.countP (fun l => l.post_id == pid)

/-- The inline optional-auth block shared by list_posts (main.py lines
128-133) and get_user_posts (main.py lines 206-211): a missing header, a
non-Bearer scheme or an unknown username all leave user_id as None
(anonymous caller). -/
def resolveOptionalUserId (db : DB) (authorization : Option String) : Option String :=
  match authorization with
  | none => none
  | some a =>
    if pyStartsWith a "Bearer " then
      match db.users.find? (fun u => u.username == bearerToken a) with
      | some user => some user.id
      | none => none
    else none

/-- Body of the per-post loop of list_posts and get_user_posts (main.py lines
135-148 and 213-226): attach likes_count and liked_by_me to a post row. -/
def enrichPost (db : DB) (user_id : Option String) (post : PostDB) : PostWithLikes :=
  { id := post.id, text := post.text, timestamp := post.timestamp,
    owner_id := post.owner_id, owner_username := post.owner_username,
    likes_count := likesCountFor db.likes post.id,
    liked_by_me := match user_id with
      | some uid =>
        (db.likes.find? (fun l => l.post_id == post.id && l.user_id == uid)).isSome
      | none => false }

/-- list_posts (main.py lines 125-149): every post, timestamp descending,
enriched; never raises. -/
def list_posts (db : DB) (authorization : Option String) : List PostWithLikes :=
  let posts := List.insertionSort tsRel db.posts
  let user_id := resolveOptionalUserId db authorization
  posts.map (enrichPost db user_id)

/-- get_user_posts (main.py lines 200-227): 404 when the named user is
unknown, otherwise that user's posts, timestamp descending, enriched. -/
def get_user_posts (db : DB) (username : String) (authorization : Option String) :
    Except Err (List PostWithLikes) :=
  match db.users.find? (fun u => u.username == username) with
  | none => .error (.http 404 "User not found")
  | some user =>
    let posts := List.insertionSort tsRel (db.posts.filter (fun p => p.owner_id == user.id))
    let user_id := resolveOptionalUserId db authorization
    .ok (posts.map (enrichPost db user_id))

/-- create_post (main.py lines 151-163); the generated uuid and the current
UTC instant enter as parameters.  Returns the created post with status 201. -/
def create_post (db : DB) (text : String) (current_user : User)
    (new_id : String) (now : Nat) : (Nat × PostDB) × DB :=
  let new_post : PostDB := ⟨new_id, text, now, current_user.id, current_user.username⟩
  ((201, new_post), { db with posts := db.posts ++ [new_post] })

/-- delete_post (main.py lines 165-173).  db.delete removes the row the query
returned, i.e. the first row with the given id.  The likes relationship of
PostDB (main.py line 46) has no delete cascade, so at flush the ORM loads
the dependent Like rows and tries to null their post_id; that column is
declared NOT NULL (main.py line 52), so whenever a Like row references the
post the commit raises IntegrityError, nothing in the handler catches it
(500-class failure) and the transaction rolls back.  Only when no Like row
references the post does the delete go through; the handler body then
returns None, served as 204 with an empty body. -/
def delete_post (db : DB) (post_id : String) (current_user : User) :
    Except Err (Nat × Option String) × DB :=
  match db.posts.find? (fun p => p.id == post_id) with
  | none => (.error (.http 404 "Post not found"), db)
  | some post =>
    if post.owner_id ≠ current_user.id then
      (.error (.http 403 "Not authorized to delete this post"), db)
    else if db.likes.any (fun l => l.post_id == post.id) then
      (.error .integrityError, db)
    else
      (.ok (204, none), { db with posts := db.posts.eraseP (fun p => p.id == post_id) })

/-- Commit of an INSERT into likes: the UniqueConstraint on
(user_id, post_id) makes the driver raise IntegrityError when a row with the
same pair is already present; otherwise the row is appended. -/
def insertLike (likes : List LikeDB) (l : LikeDB) : Except Err (List LikeDB) :=
  if likes.any (fun l2 => l2.user_id == l.user_id && l2.post_id == l.post_id) then
    .error .integrityError
  else
    .ok (likes ++ [l])

/-- like_post (main.py lines 176-188); the autoincrement id of the new row
enters as a parameter.  Nothing in the handler catches an IntegrityError
from the commit. -/
def like_post (db : DB) (post_id : String) (current_user : User) (like_id : Nat) :
    Except Err (Nat × String) × DB :=
  match db.posts.find? (fun p => p.id == post_id) with
  | none => (.error (.http 404 "Post not found"), db)
  | some _ =>
    match db.likes.find? (fun l => l.user_id == current_user.id && l.post_id == post_id) with
    | some _ => (.error (.http 400 "Already liked"), db)
    | none =>
      match insertLike db.likes ⟨like_id, current_user.id, post_id⟩ with
      | .error e => (.error e, db)
      | .ok likes2 => (.ok (201, "Liked"), { db with likes := likes2 })

/-- unlike_post (main.py lines 190-197): db.delete removes the row the query
returned, i.e. the first Like of (caller, post); the handler answers 204
with an empty body.  No query ever touches the posts table here. -/
def unlike_post (db : DB) (post_id : String) (current_user : User) :
    Except Err (Nat × Option String) × DB :=
  match db.likes.find? (fun l => l.user_id == current_user.id && l.post_id == post_id) with
  | none => (.error (.http 404 "Like not found"), db)
  | some _ =>
    (.ok (204, none),
      { db with likes := db.likes.eraseP (fun l => l.user_id == current_user.id && l.post_id == post_id) })

/-- POST /api/posts: FastAPI resolves the get_current_user dependency, then
validates the PostCreate body, whose only field text is required (main.py
lines 67-68). -/
def create_post_endpoint (db : DB) (authorization : Option String)
    (text : Option String) (new_id : String) (now : Nat) :
    Except Err (Nat × PostDB) × DB :=
  match requireAuth db authorization with
  | .error e => (.error e, db)
  | .ok cu =>
    match text with
    | none => (.error .missingField, db)
    | some t =>
      let r := create_post db t cu new_id now
      (.ok r.1, r.2)

/-- DELETE /api/posts/(post_id) with its auth dependency. -/
def delete_post_endpoint (db : DB) (authorization : Option String) (post_id : String) :
    Except Err (Nat × Option String) × DB :=
  match requireAuth db authorization with
  | .error e => (.error e, db)
  | .ok cu => delete_post db post_id cu

/-- POST /api/posts/(post_id)/like with its auth dependency. -/
def like_post_endpoint (db : DB) (authorization : Option String) (post_id : String)
    (like_id : Nat) : Except Err (Nat × String) × DB :=
  match requireAuth db authorization with
  | .error e => (.error e, db)
  | .ok cu => like_post db post_id cu like_id

/-- DELETE /api/posts/(post_id)/like with its auth dependency. -/
def unlike_post_endpoint (db : DB) (authorization : Option String) (post_id : String) :
    Except Err (Nat × Option String) × DB :=
  match requireAuth db authorization with
  | .error e => (.error e, db)
  | .ok cu => unlike_post db post_id cu

/-- Two like_post requests for the same (caller, post) interleaved so that
both SELECT checks of main.py lines 178-184 run against the initial state
before either INSERT commits; the store then serializes the two commits.
Gives request A's outcome, request B's outcome and the final state. -/
def like_post_raced (db0 : DB) (post_id : String) (current_user : User)
    (idA idB : Nat) : Except Err (Nat × String) × Except Err (Nat × String) × DB :=
  let a := like_post db0 post_id current_user idA
  let b : Except Err (Nat × String) × DB :=
    match db0.posts.find? (fun p => p.id == post_id) with
    | none => (.error (.http 404 "Post not found"), a.2)
    | some _ =>
      match db0.likes.find? (fun l => l.user_id == current_user.id && l.post_id == post_id) with
      | some _ => (.error (.http 400 "Already liked"), a.2)
      | none =>
        match insertLike a.2.likes ⟨idB, current_user.id, post_id⟩ with
        | .error e => (.error e, a.2)
        | .ok likes2 => (.ok (201, "Liked"), { a.2 with likes := likes2 })
  (a.1, b.1, b.2)

/-- Seeded state plus one post by user1, used by concrete witnesses. -/
def post1 : PostDB := ⟨"p1", "hello", 10, "1", "user1"⟩

/-- Store holding the two seeded users and post1, no likes. -/
def db0 : DB := ⟨FAKE_USERS_DB, [post1], []⟩

/-- Store holding the two seeded users, post1, and user2's like of post1. -/
def dbLiked : DB := ⟨FAKE_USERS_DB, [post1], [⟨1, "2", "p1"⟩]⟩

/-- Number of Like rows of one (user, post) pair. -/
def likeCountByUserPost (likes : List LikeDB) (uid pid : String) : Nat :=
  likes.countP (fun l => l.user_id == uid && l.post_id == pid)

/-- Decomposition of a successful find? together with the matching eraseP:
the list splits around the first match, and eraseP removes exactly it. -/
theorem find?_eraseP_split {α : Type} (p : α → Bool) :
    ∀ {xs : List α} {a : α}, xs.find? p = some a →
      ∃ s t, xs = s ++ a :: t ∧ (∀ b ∈ s, ¬ p b = true) ∧ xs.eraseP p = s ++ t := by
  intro xs
  induction xs with
  | nil => intro a h; simp at h
  | cons x xs ih =>
    intro a h
    by_cases hx : p x = true
    · rw [List.find?_cons_of_pos _ hx] at h
      obtain rfl : x = a := by injection h
      exact ⟨[], xs, rfl, by simp, by simp [List.eraseP_cons_of_pos hx]⟩
    · rw [List.find?_cons_of_neg _ hx] at h
      obtain ⟨s, t, hxs, hs, he⟩ := ih h
      refine ⟨x :: s, t, by simp [hxs], ?_, by rw [List.eraseP_cons_of_neg hx, he]; rfl⟩
      intro b hb
      rcases List.mem_cons.mp hb with rfl | hb2
      · exact hx
      · exact hs b hb2

/-- C1: for every seeded user, login with the exact credentials answers an
access_token equal to the username, and that token presented as a Bearer
header resolves on the auth dependency to the same user (same id and
username); login with an unknown username or a non-matching password fails
with 401. -/
theorem C1_login_token_roundtrip (db : DB) (hu : db.users = FAKE_USERS_DB)
    (u : UserDB) (hm : u ∈ FAKE_USERS_DB) :
    (login db (some u.username) (some u.password) =
        .ok ⟨u.username, "bearer", ⟨u.id, u.username⟩⟩ ∧
      get_current_user db ("Bearer " ++ u.username) = .ok ⟨u.id, u.username⟩) ∧
    ∀ un pw : String,
      (∀ v ∈ db.users, ¬(v.username = un ∧ v.password = pw)) →
      login db (some un) (some pw) = .error (.http 401 "Incorrect username or password") := by
  constructor
  · obtain ⟨us, ps, ls⟩ := db
    obtain rfl : us = FAKE_USERS_DB := hu
    simp only [FAKE_USERS_DB, List.mem_cons, List.not_mem_nil, or_false] at hm
    rcases hm with rfl | rfl <;> exact ⟨rfl, rfl⟩
  · intro un pw hno
    cases hf : db.users.find? (fun v => v.username == un) with
    | none => simp [login, hf]
    | some v =>
      have hvu : v.username = un := by simpa using List.find?_some hf
      have hvm : v ∈ db.users := List.mem_of_find?_eq_some hf
      have hnp : some pw ≠ some v.password := by
        simp only [ne_eq, Option.some.injEq]
        exact fun hp => hno v hvm ⟨hvu, hp.symm⟩
      simp [login, hf, hnp]

/-- Concrete instance of the C1 theorem at the first seeded user and the
seeded store. -/
theorem C1_login_token_roundtrip_witness :
    (login db0 (some user1.username) (some user1.password) =
        .ok ⟨user1.username, "bearer", ⟨user1.id, user1.username⟩⟩ ∧
      get_current_user db0 ("Bearer " ++ user1.username) = .ok ⟨user1.id, user1.username⟩) ∧
    ∀ un pw : String,
      (∀ v ∈ db0.users, ¬(v.username = un ∧ v.password = pw)) →
      login db0 (some un) (some pw) = .error (.http 401 "Incorrect username or password") :=
  C1_login_token_roundtrip db0 rfl user1 (by decide)

/-- C2: like_post answers 404 when the post is absent; 400 when a Like of
(caller, post) already exists, with the store unchanged; otherwise it appends
exactly one Like row for (caller, post) and answers 201 — and it preserves
the at-most-one-Like-per-(user, post) invariant, so one user's contribution
to a post's likes_count never exceeds 1. -/
theorem C2_like_post_contract (db : DB) (post_id : String) (cu : User) (like_id : Nat) :
    (db.posts.find? (fun p => p.id == post_id) = none →
      like_post db post_id cu like_id = (.error (.http 404 "Post not found"), db)) ∧
    ((db.posts.find? (fun p => p.id == post_id)).isSome = true →
      (db.likes.find? (fun l => l.user_id == cu.id && l.post_id == post_id)).isSome = true →
      like_post db post_id cu like_id = (.error (.http 400 "Already liked"), db)) ∧
    ((db.posts.find? (fun p => p.id == post_id)).isSome = true →
      db.likes.find? (fun l => l.user_id == cu.id && l.post_id == post_id) = none →
      (like_post db post_id cu like_id).1 = .ok (201, "Liked") ∧
      (like_post db post_id cu like_id).2.likes = db.likes ++ [⟨like_id, cu.id, post_id⟩]) ∧
    ((∀ uid pid, likeCountByUserPost db.likes uid pid ≤ 1) →
      ∀ uid pid, likeCountByUserPost (like_post db post_id cu like_id).2.likes uid pid ≤ 1) := by
  have hany : db.likes.find? (fun l => l.user_id == cu.id && l.post_id == post_id) = none →
      db.likes.any (fun l2 => l2.user_id == cu.id && l2.post_id == post_id) = false := by
    intro h2
    rw [List.any_eq_false]
    intro x hx
    exact (List.find?_eq_none.mp h2) x hx
  refine ⟨?_, ?_, ?_, ?_⟩
  · intro h
    simp [like_post, h]
  · intro h1 h2
    obtain ⟨p, hp⟩ := Option.isSome_iff_exists.mp h1
    obtain ⟨lk, hlk⟩ := Option.isSome_iff_exists.mp h2
    simp [like_post, hp, hlk]
  · intro h1 h2
    obtain ⟨p, hp⟩ := Option.isSome_iff_exists.mp h1
    constructor <;> simp [like_post, hp, h2, insertLike, hany h2]
  · intro hinv uid pid
    cases hp : db.posts.find? (fun p => p.id == post_id) with
    | none => simpa [like_post, hp] using hinv uid pid
    | some p =>
      cases hl : db.likes.find? (fun l => l.user_id == cu.id && l.post_id == post_id) with
      | some lk => simpa [like_post, hp, hl] using hinv uid pid
      | none =>
        have hres : (like_post db post_id cu like_id).2.likes =
            db.likes ++ [⟨like_id, cu.id, post_id⟩] := by
          simp [like_post, hp, hl, insertLike, hany hl]
        rw [hres]
        unfold likeCountByUserPost
        rw [List.countP_append]
        cases hmatch : (fun l : LikeDB => l.user_id == uid && l.post_id == pid)
            (⟨like_id, cu.id, post_id⟩ : LikeDB) with
        | false =>
          rw [List.countP_cons_of_neg _ _ (by simp [hmatch]), List.countP_nil]
          exact hinv uid pid
        | true =>
          obtain ⟨huid, hpid⟩ : cu.id = uid ∧ post_id = pid := by simpa using hmatch
          subst huid
          subst hpid
          have hz : db.likes.countP (fun l => l.user_id == cu.id && l.post_id == post_id) = 0 := by
            rw [List.countP_eq_zero]
            intro a ha
            exact (List.find?_eq_none.mp hl) a ha
          rw [hz, List.countP_cons_of_pos _ _ (by simp), List.countP_nil]

/-- Concrete instances of the C2 theorem: 404 on a missing post, 400 on a
duplicate like, 201 with exactly one appended row on a fresh like. -/
theorem C2_like_post_contract_witness :
    like_post db0 "nope" ⟨"2", "user2"⟩ 1 = (.error (.http 404 "Post not found"), db0) ∧
    like_post dbLiked "p1" ⟨"2", "user2"⟩ 2 = (.error (.http 400 "Already liked"), dbLiked) ∧
    (like_post db0 "p1" ⟨"2", "user2"⟩ 1).1 = .ok (201, "Liked") ∧
    (like_post db0 "p1" ⟨"2", "user2"⟩ 1).2.likes = db0.likes ++ [⟨1, "2", "p1"⟩] :=
  ⟨(C2_like_post_contract db0 "nope" ⟨"2", "user2"⟩ 1).1 (by decide),
   (C2_like_post_contract dbLiked "p1" ⟨"2", "user2"⟩ 2).2.1 (by decide) (by decide),
   ((C2_like_post_contract db0 "p1" ⟨"2", "user2"⟩ 1).2.2.1 (by decide) (by decide)).1,
   ((C2_like_post_contract db0 "p1" ⟨"2", "user2"⟩ 1).2.2.1 (by decide) (by decide)).2⟩

/-- Any stored post row contributes its id to the enriched listing, whatever
the caller's header is. -/
theorem id_mem_list_posts {db : DB} {p : PostDB} (hp : p ∈ db.posts) (a : Option String) :
    p.id ∈ (list_posts db a).map (fun e => e.id) := by
  simp only [list_posts]
  rw [List.map_map]
  have hmem : p ∈ List.insertionSort tsRel db.posts :=
    (List.perm_insertionSort tsRel db.posts).mem_iff.mpr hp
  exact List.mem_map.mpr ⟨p, hmem, rfl⟩

/-- Under the claim, every owner delete of an existing post would answer 204
with the post removed; at the state where user2's like of post1 exists, the
owner delete instead surfaces the unhandled 500-class IntegrityError from
nulling likes.post_id and removes nothing. -/
theorem C3_delete_post_counterexample :
    delete_post dbLiked "p1" ⟨"1", "user1"⟩ = (.error .integrityError, dbLiked) ∧
    Err.integrityError.statusCode = 500 ∧
    ¬ (delete_post dbLiked "p1" ⟨"1", "user1"⟩).1 = .ok (204, none) := by
  decide

/-- C3 amended: delete_post answers 404 when no post has the id; 403 when the
caller is not the owner, leaving the store unchanged with the post still
listed; for the owner it removes the post row and answers 204 with an empty
body when no Like row references the post, while with a referencing Like row
the commit surfaces the unhandled 500-class IntegrityError and the store is
unchanged. -/
theorem C3_delete_post_contract (db : DB) (post_id : String) (cu : User) :
    (db.posts.find? (fun p => p.id == post_id) = none →
      delete_post db post_id cu = (.error (.http 404 "Post not found"), db)) ∧
    (∀ post, db.posts.find? (fun p => p.id == post_id) = some post →
      post.owner_id ≠ cu.id →
      delete_post db post_id cu = (.error (.http 403 "Not authorized to delete this post"), db) ∧
      ∀ a : Option String, post.id ∈ (list_posts db a).map (fun e => e.id)) ∧
    (∀ post, db.posts.find? (fun p => p.id == post_id) = some post →
      post.owner_id = cu.id →
      (db.likes.any (fun l => l.post_id == post.id) = true →
        delete_post db post_id cu = (.error .integrityError, db) ∧
        Err.integrityError.statusCode = 500) ∧
      (db.likes.any (fun l => l.post_id == post.id) = false →
        (delete_post db post_id cu).1 = .ok (204, none) ∧
        (delete_post db post_id cu).2.posts = db.posts.eraseP (fun p => p.id == post_id) ∧
        ((db.posts.map (fun p => p.id)).Nodup →
          post_id ∉ ((delete_post db post_id cu).2.posts.map (fun p => p.id))))) := by
  refine ⟨?_, ?_, ?_⟩
  · intro h
    simp [delete_post, h]
  · intro post hf hown
    refine ⟨by simp [delete_post, hf, hown], fun a => id_mem_list_posts (List.mem_of_find?_eq_some hf) a⟩
  · intro post hf hown
    constructor
    · intro hany
      exact ⟨by simp [delete_post, hf, hown, hany], rfl⟩
    · intro hany
      have hid : post.id = post_id := by simpa using List.find?_some hf
      have hposts : (delete_post db post_id cu).2.posts =
          db.posts.eraseP (fun p => p.id == post_id) := by
        simp [delete_post, hf, hown, hany]
      refine ⟨by simp [delete_post, hf, hown, hany], hposts, ?_⟩
      intro hnd
      obtain ⟨s, t, hsplit, hs, he⟩ := find?_eraseP_split (fun p : PostDB => p.id == post_id) hf
      rw [hposts, he]
      have hnd' : (s.map (fun p => p.id) ++ post.id :: t.map (fun p => p.id)).Nodup := by
        rw [hsplit] at hnd
        simpa [List.map_append] using hnd
      have hnotin := (List.nodup_cons.mp (List.nodup_middle.mp hnd')).1
      rw [← hid]
      simpa [List.map_append] using hnotin

/-- Concrete instances of the amended C3 theorem: 404 on a missing post, 403
for a non-owner with the post still listed, the 500-class failure for the
owner while a like exists, and 204 with the row removed for the owner of an
unliked post. -/
theorem C3_delete_post_contract_witness :
    delete_post db0 "nope" ⟨"2", "user2"⟩ = (.error (.http 404 "Post not found"), db0) ∧
    delete_post db0 "p1" ⟨"2", "user2"⟩ =
      (.error (.http 403 "Not authorized to delete this post"), db0) ∧
    post1.id ∈ (list_posts db0 none).map (fun e => e.id) ∧
    (delete_post dbLiked "p1" ⟨"1", "user1"⟩ = (.error .integrityError, dbLiked) ∧
      Err.integrityError.statusCode = 500) ∧
    (delete_post db0 "p1" ⟨"1", "user1"⟩).1 = .ok (204, none) ∧
    (delete_post db0 "p1" ⟨"1", "user1"⟩).2.posts = db0.posts.eraseP (fun p => p.id == "p1") ∧
    "p1" ∉ ((delete_post db0 "p1" ⟨"1", "user1"⟩).2.posts.map (fun p => p.id)) :=
  ⟨(C3_delete_post_contract db0 "nope" ⟨"2", "user2"⟩).1 (by decide),
   ((C3_delete_post_contract db0 "p1" ⟨"2", "user2"⟩).2.1 post1 (by decide) (by decide)).1,
   ((C3_delete_post_contract db0 "p1" ⟨"2", "user2"⟩).2.1 post1 (by decide) (by decide)).2 none,
   ((C3_delete_post_contract dbLiked "p1" ⟨"1", "user1"⟩).2.2 post1 (by decide) (by decide)).1
     (by decide),
   (((C3_delete_post_contract db0 "p1" ⟨"1", "user1"⟩).2.2 post1 (by decide) (by decide)).2
     (by decide)).1,
   (((C3_delete_post_contract db0 "p1" ⟨"1", "user1"⟩).2.2 post1 (by decide) (by decide)).2
     (by decide)).2.1,
   (((C3_delete_post_contract db0 "p1" ⟨"1", "user1"⟩).2.2 post1 (by decide) (by decide)).2
     (by decide)).2.2 (by decide)⟩

/-- Projection from an enriched listing entry back to the stored post row. -/
def PostWithLikes.toPostDB (e : PostWithLikes) : PostDB :=
  ⟨e.id, e.text, e.timestamp, e.owner_id, e.owner_username⟩

/-- Stripping the enrichment from a sorted, enriched listing gives back the
underlying rows up to permutation. -/
theorem enriched_perm (db : DB) (uid? : Option String) (l : List PostDB) :
    (((List.insertionSort tsRel l).map (enrichPost db uid?)).map PostWithLikes.toPostDB).Perm l := by
  rw [List.map_map]
  have hcomp : PostWithLikes.toPostDB ∘ enrichPost db uid? = id := funext fun p => rfl
  rw [hcomp, List.map_id]
  exact List.perm_insertionSort tsRel l

/-- An enriched listing is ordered by timestamp descending. -/
theorem enriched_sorted (db : DB) (uid? : Option String) (l : List PostDB) :
    List.Pairwise (fun x y : PostWithLikes => y.timestamp ≤ x.timestamp)
      ((List.insertionSort tsRel l).map (enrichPost db uid?)) := by
  rw [List.pairwise_map]
  exact List.sorted_insertionSort tsRel l

/-- Each entry of an enriched listing carries the number of Like rows of its
post, and liked_by_me holds exactly when the resolved caller has such a
row. -/
theorem enriched_elem (db : DB) (uid? : Option String) (l : List PostDB) :
    ∀ e ∈ (List.insertionSort tsRel l).map (enrichPost db uid?),
      e.likes_count = (db.likes.filter (fun lk => lk.post_id == e.id)).length ∧
      (e.liked_by_me = true ↔
        ∃ uid, uid? = some uid ∧ ∃ lk ∈ db.likes, lk.post_id = e.id ∧ lk.user_id = uid) := by
  intro e he
  obtain ⟨p, hp, rfl⟩ := List.mem_map.mp he
  constructor
  · simp [enrichPost, likesCountFor, List.countP_eq_length_filter]
  · cases uid? with
    | none => simp [enrichPost]
    | some uid => simp [enrichPost, List.find?_isSome, and_comm]

/-- C4: both list endpoints return every stored post (all of them, or exactly
the named user's, with 404 when that user is unknown), ordered by timestamp
descending; each entry carries likes_count equal to the number of Like rows
of the post, and liked_by_me holds exactly when the resolved caller has a
Like row for it — in particular it is false everywhere for an anonymous
caller. -/
theorem C4_listing_contract (db : DB) (a : Option String) (un : String) :
    ((list_posts db a).map PostWithLikes.toPostDB).Perm db.posts ∧
    List.Pairwise (fun x y : PostWithLikes => y.timestamp ≤ x.timestamp) (list_posts db a) ∧
    (∀ e ∈ list_posts db a,
      e.likes_count = (db.likes.filter (fun lk => lk.post_id == e.id)).length ∧
      (e.liked_by_me = true ↔
        ∃ uid, resolveOptionalUserId db a = some uid ∧
          ∃ lk ∈ db.likes, lk.post_id = e.id ∧ lk.user_id = uid)) ∧
    (a = none → ∀ e ∈ list_posts db a, e.liked_by_me = false) ∧
    (db.users.find? (fun u => u.username == un) = none →
      get_user_posts db un a = .error (.http 404 "User not found")) ∧
    (∀ user, db.users.find? (fun u => u.username == un) = some user →
      ∃ out, get_user_posts db un a = .ok out ∧
        (out.map PostWithLikes.toPostDB).Perm (db.posts.filter (fun p => p.owner_id == user.id)) ∧
        List.Pairwise (fun x y : PostWithLikes => y.timestamp ≤ x.timestamp) out ∧
        (∀ e ∈ out,
          e.likes_count = (db.likes.filter (fun lk => lk.post_id == e.id)).length ∧
          (e.liked_by_me = true ↔
            ∃ uid, resolveOptionalUserId db a = some uid ∧
              ∃ lk ∈ db.likes, lk.post_id = e.id ∧ lk.user_id = uid))) := by
  refine ⟨?_, ?_, ?_, ?_, ?_, ?_⟩
  · simpa [list_posts] using enriched_perm db (resolveOptionalUserId db a) db.posts
  · simpa [list_posts] using enriched_sorted db (resolveOptionalUserId db a) db.posts
  · simpa [list_posts] using enriched_elem db (resolveOptionalUserId db a) db.posts
  · rintro rfl e he
    simp only [list_posts] at he
    obtain ⟨p, hp, rfl⟩ := List.mem_map.mp he
    rfl
  · intro h
    simp [get_user_posts, h]
  · intro user hf
    refine ⟨(List.insertionSort tsRel (db.posts.filter (fun p => p.owner_id == user.id))).map
        (enrichPost db (resolveOptionalUserId db a)), ?_, ?_, ?_, ?_⟩
    · simp [get_user_posts, hf]
    · exact enriched_perm db (resolveOptionalUserId db a) _
    · exact enriched_sorted db (resolveOptionalUserId db a) _
    · exact enriched_elem db (resolveOptionalUserId db a) _

/-- Concrete instances of the C4 theorem: anonymous listing all unliked, 404
for an unknown username, and the per-user listing for a found user. -/
theorem C4_listing_contract_witness :
    (∀ e ∈ list_posts dbLiked none, e.liked_by_me = false) ∧
    get_user_posts dbLiked "ghost" none = .error (.http 404 "User not found") ∧
    (∃ out, get_user_posts dbLiked "user1" (some "Bearer user2") = .ok out ∧
      (out.map PostWithLikes.toPostDB).Perm
        (dbLiked.posts.filter (fun p => p.owner_id == user1.id)) ∧
      List.Pairwise (fun x y : PostWithLikes => y.timestamp ≤ x.timestamp) out ∧
      (∀ e ∈ out,
        e.likes_count = (dbLiked.likes.filter (fun lk => lk.post_id == e.id)).length ∧
        (e.liked_by_me = true ↔
          ∃ uid, resolveOptionalUserId dbLiked (some "Bearer user2") = some uid ∧
            ∃ lk ∈ dbLiked.likes, lk.post_id = e.id ∧ lk.user_id = uid))) :=
  ⟨(C4_listing_contract dbLiked none "ghost").2.2.2.1 rfl,
   (C4_listing_contract dbLiked none "ghost").2.2.2.2.1 (by decide),
   (C4_listing_contract dbLiked (some "Bearer user2") "user1").2.2.2.2.2 user1 (by decide)⟩

/-- C5: unlike_post answers 404 exactly when no Like row of (caller, post id)
exists; otherwise it deletes exactly the found Like row and answers 204 with
an empty body — and the outcome never consults the posts table, so no
separate existence check of the post happens. -/
theorem C5_unlike_post_contract (db : DB) (post_id : String) (cu : User) :
    (db.likes.find? (fun l => l.user_id == cu.id && l.post_id == post_id) = none →
      unlike_post db post_id cu = (.error (.http 404 "Like not found"), db)) ∧
    (∀ lk, db.likes.find? (fun l => l.user_id == cu.id && l.post_id == post_id) = some lk →
      (unlike_post db post_id cu).1 = .ok (204, none) ∧
      ∃ s t, db.likes = s ++ lk :: t ∧
        (∀ b ∈ s, ¬ (b.user_id == cu.id && b.post_id == post_id) = true) ∧
        (unlike_post db post_id cu).2.likes = s ++ t) ∧
    (∀ posts2 : List PostDB,
      (unlike_post ⟨db.users, posts2, db.likes⟩ post_id cu).1 = (unlike_post db post_id cu).1 ∧
      (unlike_post ⟨db.users, posts2, db.likes⟩ post_id cu).2.likes =
        (unlike_post db post_id cu).2.likes) := by
  refine ⟨?_, ?_, ?_⟩
  · intro h
    simp [unlike_post, h]
  · intro lk hf
    obtain ⟨s, t, hsplit, hs, he⟩ :=
      find?_eraseP_split (fun l : LikeDB => l.user_id == cu.id && l.post_id == post_id) hf
    exact ⟨by simp [unlike_post, hf], s, t, hsplit, hs, by simp [unlike_post, hf, he]⟩
  · intro posts2
    cases hf : db.likes.find? (fun l => l.user_id == cu.id && l.post_id == post_id) with
    | none => constructor <;> simp [unlike_post, hf]
    | some lk => constructor <;> simp [unlike_post, hf]

/-- Concrete instances of the C5 theorem: 404 when the caller never liked the
post (even though the post exists), deletion of the like row otherwise, and
the same outcome when the posts table is emptied. -/
theorem C5_unlike_post_contract_witness :
    unlike_post db0 "p1" ⟨"2", "user2"⟩ = (.error (.http 404 "Like not found"), db0) ∧
    ((unlike_post dbLiked "p1" ⟨"2", "user2"⟩).1 = .ok (204, none) ∧
      ∃ s t, dbLiked.likes = s ++ (⟨1, "2", "p1"⟩ : LikeDB) :: t ∧
        (∀ b ∈ s, ¬ (b.user_id == "2" && b.post_id == "p1") = true) ∧
        (unlike_post dbLiked "p1" ⟨"2", "user2"⟩).2.likes = s ++ t) ∧
    ((unlike_post ⟨dbLiked.users, [], dbLiked.likes⟩ "p1" ⟨"2", "user2"⟩).1 =
        (unlike_post dbLiked "p1" ⟨"2", "user2"⟩).1 ∧
      (unlike_post ⟨dbLiked.users, [], dbLiked.likes⟩ "p1" ⟨"2", "user2"⟩).2.likes =
        (unlike_post dbLiked "p1" ⟨"2", "user2"⟩).2.likes) :=
  ⟨(C5_unlike_post_contract db0 "p1" ⟨"2", "user2"⟩).1 (by decide),
   (C5_unlike_post_contract dbLiked "p1" ⟨"2", "user2"⟩).2.1 ⟨1, "2", "p1"⟩ (by decide),
   (C5_unlike_post_contract dbLiked "p1" ⟨"2", "user2"⟩).2.2 []⟩

/-- Under the claim, an absent Authorization header on a caller-requiring
endpoint would fail with 401; on the seeded store the four such endpoints
fail with the framework's 422 validation error instead. -/
theorem C6_counterexample :
    (create_post_endpoint db0 none (some "hi") "p9" 5).1 = .error .missingHeader ∧
    (delete_post_endpoint db0 none "p1").1 = .error .missingHeader ∧
    (like_post_endpoint db0 none "p1" 1).1 = .error .missingHeader ∧
    (unlike_post_endpoint db0 none "p1").1 = .error .missingHeader ∧
    Err.missingHeader.statusCode = 422 ∧ ¬ Err.missingHeader.statusCode = 401 := by
  decide

/-- C6 amended: on the four caller-requiring endpoints, an absent
Authorization header fails with the 422 validation error, and a present
header that does not start with the literal prefix of the Bearer scheme
fails with 401. -/
theorem C6_auth_scheme_amended (db : DB) (text : Option String) (new_id : String)
    (now : Nat) (post_id : String) (like_id : Nat) :
    ((create_post_endpoint db none text new_id now).1 = .error .missingHeader ∧
      (delete_post_endpoint db none post_id).1 = .error .missingHeader ∧
      (like_post_endpoint db none post_id like_id).1 = .error .missingHeader ∧
      (unlike_post_endpoint db none post_id).1 = .error .missingHeader ∧
      Err.missingHeader.statusCode = 422) ∧
    ∀ a : String, pyStartsWith a "Bearer " = false →
      (create_post_endpoint db (some a) text new_id now).1 = .error (.http 401 "Invalid scheme") ∧
      (delete_post_endpoint db (some a) post_id).1 = .error (.http 401 "Invalid scheme") ∧
      (like_post_endpoint db (some a) post_id like_id).1 = .error (.http 401 "Invalid scheme") ∧
      (unlike_post_endpoint db (some a) post_id).1 = .error (.http 401 "Invalid scheme") := by
  constructor
  · exact ⟨rfl, rfl, rfl, rfl, rfl⟩
  · intro a ha
    have hauth : requireAuth db (some a) = .error (.http 401 "Invalid scheme") := by
      simp [requireAuth, get_current_user, ha]
    exact ⟨by simp [create_post_endpoint, hauth], by simp [delete_post_endpoint, hauth],
      by simp [like_post_endpoint, hauth], by simp [unlike_post_endpoint, hauth]⟩

/-- Concrete instance of the amended C6 theorem at a Basic-scheme header. -/
theorem C6_auth_scheme_amended_witness :
    ((create_post_endpoint db0 none (some "hi") "p9" 5).1 = .error .missingHeader ∧
      (delete_post_endpoint db0 none "p1").1 = .error .missingHeader ∧
      (like_post_endpoint db0 none "p1" 1).1 = .error .missingHeader ∧
      (unlike_post_endpoint db0 none "p1").1 = .error .missingHeader ∧
      Err.missingHeader.statusCode = 422) ∧
    ((create_post_endpoint db0 (some "Basic user1") (some "hi") "p9" 5).1 =
        .error (.http 401 "Invalid scheme") ∧
      (delete_post_endpoint db0 (some "Basic user1") "p1").1 = .error (.http 401 "Invalid scheme") ∧
      (like_post_endpoint db0 (some "Basic user1") "p1" 1).1 = .error (.http 401 "Invalid scheme") ∧
      (unlike_post_endpoint db0 (some "Basic user1") "p1").1 = .error (.http 401 "Invalid scheme")) :=
  ⟨(C6_auth_scheme_amended db0 (some "hi") "p9" 5 "p1" 1).1,
   (C6_auth_scheme_amended db0 (some "hi") "p9" 5 "p1" 1).2 "Basic user1" (by decide)⟩

/-- Under the claim, a Bearer token naming an unknown username would fail
with 401 on the read/list endpoints too; on the seeded store those endpoints
answer normally (anonymous treatment) even though the auth dependency
rejects the same header. -/
theorem C7_counterexample :
    get_current_user db0 "Bearer ghost" = .error (.http 401 "Invalid token") ∧
    list_posts db0 (some "Bearer ghost") = [⟨"p1", "hello", 10, "1", "user1", 0, false⟩] ∧
    list_posts db0 (some "Bearer ghost") = list_posts db0 none ∧
    get_user_posts db0 "user1" (some "Bearer ghost") =
      .ok [⟨"p1", "hello", 10, "1", "user1", 0, false⟩] := by
  decide

/-- C7 amended: a Bearer header whose token is an unknown username fails with
401 on the endpoints that require a caller (through get_current_user), while
the read/list endpoints treat the very same header as an anonymous caller
and answer normally. -/
theorem C7_unknown_token_amended (db : DB) (a : String) (un : String)
    (hpre : pyStartsWith a "Bearer " = true)
    (hun : db.users.find? (fun u => u.username == bearerToken a) = none) :
    get_current_user db a = .error (.http 401 "Invalid token") ∧
    list_posts db (some a) = list_posts db none ∧
    get_user_posts db un (some a) = get_user_posts db un none := by
  have hres : resolveOptionalUserId db (some a) = none := by
    simp [resolveOptionalUserId, hpre, hun]
  have hnone : resolveOptionalUserId db none = none := rfl
  refine ⟨?_, ?_, ?_⟩
  · simp [get_current_user, hpre, hun]
  · simp only [list_posts, hres, hnone]
  · cases hu : db.users.find? (fun u => u.username == un) with
    | none => simp [get_user_posts, hu]
    | some user => simp only [get_user_posts, hu, hres, hnone]

/-- Concrete instance of the amended C7 theorem at an unknown username. -/
theorem C7_unknown_token_amended_witness :
    get_current_user db0 "Bearer ghost" = .error (.http 401 "Invalid token") ∧
    list_posts db0 (some "Bearer ghost") = list_posts db0 none ∧
    get_user_posts db0 "user1" (some "Bearer ghost") = get_user_posts db0 "user1" none :=
  C7_unknown_token_amended db0 "Bearer ghost" "user1" (by decide) (by decide)

/-- C8: when two like requests by the same caller for the same post both pass
their SELECT checks before either commits, the first succeeds and the second
hits the (user_id, post_id) unique constraint; like_post has no handler for
it, so the violation surfaces as the 500-class IntegrityError and not as the
already-liked 400. -/
theorem C8_raced_like_surfaces_integrity_error :
    (like_post_raced db0 "p1" ⟨"2", "user2"⟩ 1 2).1 = .ok (201, "Liked") ∧
    (like_post_raced db0 "p1" ⟨"2", "user2"⟩ 1 2).2.1 = .error .integrityError ∧
    Err.integrityError.statusCode = 500 ∧
    ¬ (like_post_raced db0 "p1" ⟨"2", "user2"⟩ 1 2).2.1 = .error (.http 400 "Already liked") := by
  decide

/-- Under the claim, user1's delete of post1 while user2's like of it exists
would succeed and leave the like orphaned; in fact that owner delete never
succeeds: the commit surfaces the unhandled 500-class IntegrityError and
both tables are unchanged, so the claimed orphaned-likes outcome does not
occur. -/
theorem C9_orphan_likes_counterexample :
    (⟨1, "2", "p1"⟩ : LikeDB) ∈ dbLiked.likes ∧
    post1.owner_id = (⟨"1", "user1"⟩ : User).id ∧
    ¬ (delete_post dbLiked "p1" ⟨"1", "user1"⟩).1 = .ok (204, none) ∧
    delete_post dbLiked "p1" ⟨"1", "user1"⟩ = (.error .integrityError, dbLiked) := by
  decide

/-- C9 amended: delete_post never deletes Like rows on any path — the likes
table is unchanged whatever the outcome — but when a Like row references the
post, the owner delete does not succeed: it surfaces the unhandled 500-class
IntegrityError with the whole store unchanged, so a successful owner delete
exists only for a post with no likes and orphaned likes are never
produced. -/
theorem C9_delete_post_likes_frame (db : DB) (post_id : String) (cu : User) :
    ((delete_post db post_id cu).2.likes = db.likes) ∧
    (∀ post, db.posts.find? (fun p => p.id == post_id) = some post →
      post.owner_id = cu.id →
      ∀ l ∈ db.likes, l.post_id = post.id →
        delete_post db post_id cu = (.error .integrityError, db)) ∧
    (∀ post, db.posts.find? (fun p => p.id == post_id) = some post →
      post.owner_id = cu.id →
      (∀ l ∈ db.likes, ¬ l.post_id = post.id) →
      (delete_post db post_id cu).1 = .ok (204, none) ∧
      (delete_post db post_id cu).2.likes = db.likes) := by
  refine ⟨?_, ?_, ?_⟩
  · cases hf : db.posts.find? (fun p => p.id == post_id) with
    | none => simp [delete_post, hf]
    | some post =>
      by_cases hown : post.owner_id ≠ cu.id
      · simp [delete_post, hf, hown]
      · cases hany : db.likes.any (fun l => l.post_id == post.id) with
        | true => simp [delete_post, hf, hown, hany]
        | false => simp [delete_post, hf, hown, hany]
  · intro post hf hown l hl hlp
    have hany : db.likes.any (fun l => l.post_id == post.id) = true :=
      List.any_eq_true.mpr ⟨l, hl, by simp [hlp]⟩
    simp [delete_post, hf, hown, hany]
  · intro post hf hown hno
    have hany : db.likes.any (fun l => l.post_id == post.id) = false :=
      List.any_eq_false.mpr (fun x hx => by simpa using hno x hx)
    constructor <;> simp [delete_post, hf, hown, hany]

/-- Concrete instances of the amended C9 theorem: the frame and the failure
at the liked post, and the surviving likes table around a successful delete
of an unliked post. -/
theorem C9_delete_post_likes_frame_witness :
    (delete_post dbLiked "p1" ⟨"1", "user1"⟩).2.likes = dbLiked.likes ∧
    delete_post dbLiked "p1" ⟨"1", "user1"⟩ = (.error .integrityError, dbLiked) ∧
    ((delete_post db0 "p1" ⟨"1", "user1"⟩).1 = .ok (204, none) ∧
      (delete_post db0 "p1" ⟨"1", "user1"⟩).2.likes = db0.likes) :=
  ⟨(C9_delete_post_likes_frame dbLiked "p1" ⟨"1", "user1"⟩).1,
   (C9_delete_post_likes_frame dbLiked "p1" ⟨"1", "user1"⟩).2.1 post1 (by decide) (by decide)
     ⟨1, "2", "p1"⟩ (by decide) (by decide),
   (C9_delete_post_likes_frame db0 "p1" ⟨"1", "user1"⟩).2.2 post1 (by decide) (by decide)
     (by decide)⟩

/-- Under the claim, only non-empty text would ever be stored; on the seeded
store an authenticated create with the empty string succeeds with 201 and
stores a post whose text is empty. -/
theorem C10_counterexample :
    (create_post_endpoint db0 (some "Bearer user1") (some "") "p9" 99).1 =
      .ok (201, ⟨"p9", "", 99, "1", "user1"⟩) ∧
    (create_post_endpoint db0 (some "Bearer user1") (some "") "p9" 99).2.posts =
      db0.posts ++ [⟨"p9", "", 99, "1", "user1"⟩] ∧
    (⟨"p9", "", 99, "1", "user1"⟩ : PostDB).text = "" := by
  decide

/-- C10 amended: for an authenticated caller, a create request without the
text field fails with the 422 validation error and stores nothing, and a
request with any present text — the empty string included — stores exactly
one post carrying that text and answers 201. -/
theorem C10_text_amended (db : DB) (authorization : Option String) (cu : User)
    (new_id : String) (now : Nat)
    (hauth : requireAuth db authorization = .ok cu) :
    (create_post_endpoint db authorization none new_id now = (.error .missingField, db) ∧
      Err.missingField.statusCode = 422) ∧
    ∀ t : String,
      (create_post_endpoint db authorization (some t) new_id now).1 =
        .ok (201, ⟨new_id, t, now, cu.id, cu.username⟩) ∧
      (create_post_endpoint db authorization (some t) new_id now).2.posts =
        db.posts ++ [⟨new_id, t, now, cu.id, cu.username⟩] := by
  refine ⟨⟨by simp [create_post_endpoint, hauth], rfl⟩, ?_⟩
  intro t
  constructor <;> simp [create_post_endpoint, hauth, create_post]

/-- Concrete instance of the amended C10 theorem at user1's token. -/
theorem C10_text_amended_witness :
    (create_post_endpoint db0 (some "Bearer user1") none "p9" 99 = (.error .missingField, db0) ∧
      Err.missingField.statusCode = 422) ∧
    ∀ t : String,
      (create_post_endpoint db0 (some "Bearer user1") (some t) "p9" 99).1 =
        .ok (201, ⟨"p9", t, 99, "1", "user1"⟩) ∧
      (create_post_endpoint db0 (some "Bearer user1") (some t) "p9" 99).2.posts =
        db0.posts ++ [⟨"p9", t, 99, "1", "user1"⟩] :=
  C10_text_amended db0 (some "Bearer user1") ⟨"1", "user1"⟩ "p9" 99 (by decide)
